import Mathlib

/-!
Shallow embedding of `src/pubmed_search/server.py` (wavelovey/pubmed_search).

The program is an MCP tool server exposing one tool, `pubmed_search`.  Its
core is:
  * `PubMedSearcher.search` (server.py lines 49-85): a two-step interaction
    with the external Entrez database (`esearch` for identifiers, then
    `efetch` for records), whose entire body sits inside a `try` block whose
    `except Exception` branch returns an `error` outcome dict.
  * `list_tools` (lines 90-114): a static one-entry tool catalog.
  * `call_tool` (lines 116-145): protocol dispatch — unknown-tool check,
    argument-shape check, `int()` coercion of `max_results` with a
    `min(·, 15)` cap, then the search call inside a second `try`.

The external database and the Python exception mechanism are modelled with
`Except String`: an exception is an `Except.error` carrying `str(e)`.
-/

namespace PubmedSearch

/-- The value a successful `Entrez.esearch` + `Entrez.read` round-trip yields:
the list of matching identifiers (`results["IdList"]`) and the reported total
match count (`int(results["Count"])`; the source parses the count inside the
same `try` block, so a parse failure would surface as an exception and is
absorbed into the error path like any other backend failure). -/
structure ESearchResult where
  idList : List String
  count : Int
deriving Repr, DecidableEq

/-- The external Entrez collaborator: one behaviour of the network layer.
`esearch db term retmax` models `Entrez.esearch(db=..., term=..., retmax=...)`
followed by `Entrez.read`; `efetch db ids` models
`Entrez.efetch(db=..., id=ids, rettype="medline", retmode="text")` followed by
`handle.read()`.  `Except.error msg` models a raised exception whose
`str(e)` is `msg`. -/
structure Backend where
  esearch : String → String → Int → Except String ESearchResult
  efetch : String → String → Except String String

/-- The tagged result dict built by `PubMedSearcher.search`: the `status`
field of the Python dict is the constructor, the remaining fields are the
remaining dict entries. -/
inductive SearchOutcome
  | success (query : String) (total_results : Int) (showing : Nat) (records : String)
  | no_results (query : String) (message : String)
  | error (query : String) (message : String)
deriving Repr, DecidableEq

/-- The message built at server.py line 63: `f"No results found for '{query}'"`. -/
def noResultsMessage (query : String) : String :=
  "No results found for \x27" ++ query ++ "\x27"

/-- The searcher object (server.py lines 49-51): its only state is the
database name `self.db = "pubmed"`. -/
structure PubMedSearcher where
  db : String := "pubmed"

/-- The module-level `pubmed = PubMedSearcher()` instance (line 88). -/
def pubmed : PubMedSearcher := {}

/-- `PubMedSearcher.search` (server.py lines 53-85), instrumented: the second
component records the identifier list handed to the `efetch` step
(`Option.none` when that step is never reached).  The whole body of the
Python method is inside `try`; each `Except.error` from a backend call takes
the `except Exception` path (lines 79-85), which returns the `error` dict. -/
def PubMedSearcher.searchT (self : PubMedSearcher) (be : Backend) (query : String)
    (max_results : Int) : SearchOutcome × Option (List String) :=
  match be.esearch self.db query max_results with
  | Except.error e => (SearchOutcome.error query e, Option.none)
  | Except.ok results =>
    if results.idList = [] then
      (SearchOutcome.no_results query (noResultsMessage query), Option.none)
    else
      match be.efetch self.db (String.intercalate "," results.idList) with
      | Except.error e => (SearchOutcome.error query e, Option.some results.idList)
      | Except.ok records =>
        (SearchOutcome.success query results.count results.idList.length records,
          Option.some results.idList)

/-- `PubMedSearcher.search` proper: the returned outcome dict. -/
def PubMedSearcher.search (self : PubMedSearcher) (be : Backend) (query : String)
    (max_results : Int) : SearchOutcome :=
  (self.searchT be query max_results).1

/-- The request loop serving a sequence of `(query, max_results)` searches in
order: each request is processed to completion independently (server.py keeps
no mutable state across calls). -/
def serve (self : PubMedSearcher) (be : Backend) (reqs : List (String × Int)) :
    List SearchOutcome :=
  reqs.map (fun r => self.search be r.1 r.2)

/-- A Python value as it reaches `call_tool`'s `arguments: Any` parameter:
strings, ints, booleans, JSON-style objects (dicts with string keys), lists,
and `None`.  Dicts are association lists; Python dict keys are unique, and
lookup takes the first match. -/
inductive PyValue
  | str (s : String)
  | int (n : Int)
  | bool (b : Bool)
  | dict (entries : List (String × PyValue))
  | list (items : List PyValue)
  | noneVal

/-- A nonempty all-digit character sequence read as a natural number. -/
def parseDigits (l : List Char) : Option Nat :=
  if l ≠ [] ∧ l.all Char.isDigit then
    Option.some (l.foldl (fun a c => 10 * a + (c.toNat - 48)) 0)
  else Option.none

/-- Parsing a string the way Python's `int(str)` does (restricted to the
plain decimal forms: surrounding whitespace, optional sign, digits). -/
def pyIntOfString (s : String) : Option Int :=
  let t := ((s.data.dropWhile Char.isWhitespace).reverse.dropWhile Char.isWhitespace).reverse
  match t with
  | [] => Option.none
  | c :: rest =>
    if c = '+' then (parseDigits rest).map (fun n => (n : Int))
    else if c = '-' then (parseDigits rest).map (fun n => -(n : Int))
    else (parseDigits t).map (fun n => (n : Int))

/-- The Python built-in `int()` coercion as applied at server.py line 130:
succeeds on ints, booleans and numeric strings, raises `ValueError` on
non-numeric strings and `TypeError` on dicts, lists and `None`.  A raised
exception is the `Except.error` carrying its message. -/
def pyInt : PyValue → Except String Int
  | PyValue.int n => Except.ok n
  | PyValue.bool b => Except.ok (if b then 1 else 0)
  | PyValue.str s =>
    match pyIntOfString s with
    | Option.some n => Except.ok n
    | Option.none =>
      Except.error ("invalid literal for int() with base 10: \x27" ++ s ++ "\x27")
  | PyValue.dict _ =>
    Except.error "int() argument must be a string, a bytes-like object or a real number, not \x27dict\x27"
  | PyValue.list _ =>
    Except.error "int() argument must be a string, a bytes-like object or a real number, not \x27list\x27"
  | PyValue.noneVal =>
    Except.error "int() argument must be a string, a bytes-like object or a real number, not \x27NoneType\x27"

/-- The guard at server.py line 125:
`isinstance(arguments, dict) and "query" in arguments`. -/
def validArgs : PyValue → Bool
  | PyValue.dict entries => (entries.lookup "query").isSome
  | _ => false

/-- How one invocation of `call_tool` terminates.  The first two constructors
are the `raise ValueError` sites at lines 123 and 127; `uncaughtException` is
an exception escaping `call_tool` from outside its `try` block (the `int()`
coercion at line 130 is the only such site on the tool's path);
`internalSearchFailure` is the `raise RuntimeError` at line 145 produced by
the defensive `except` around the search call; `reply` is the normal return —
a single `TextContent` block whose `text` is `json.dumps(results, indent=2)`,
carried here as the outcome it serializes. -/
inductive CallResult
  | unknownTool (message : String)
  | invalidArguments (message : String)
  | uncaughtException (message : String)
  | internalSearchFailure (message : String)
  | reply (results : SearchOutcome)

/-- `call_tool` (server.py lines 116-145).  `searchFn` stands for the bound
method `pubmed.search`; it returns `Except.error msg` if that call raises
(which §4.1's contract says it never does) so that the defensive
`try/except` at lines 132-145 is represented.  The second component of the
result is the trace of `(query, max_results)` argument pairs actually passed
to `pubmed.search` for this request: `[]` means the search client was never
invoked. -/
def call_tool (searchFn : PyValue → Int → Except String SearchOutcome)
    (name : String) (arguments : PyValue) :
    CallResult × List (PyValue × Int) :=
  if name ≠ "pubmed_search" then
    (CallResult.unknownTool ("Unknown tool: " ++ name), [])
  else
    match arguments with
    | PyValue.dict entries =>
      match entries.lookup "query" with
      | Option.none => (CallResult.invalidArguments "Invalid search arguments", [])
      | Option.some query =>
        match pyInt ((entries.lookup "max_results").getD (PyValue.int 15)) with
        | Except.error e => (CallResult.uncaughtException e, [])
        | Except.ok coerced =>
          let max_results := min coerced 15
          match searchFn query max_results with
          | Except.error e =>
            (CallResult.internalSearchFailure ("PubMed search error: " ++ e),
              [(query, max_results)])
          | Except.ok results => (CallResult.reply results, [(query, max_results)])
    | _ => (CallResult.invalidArguments "Invalid search arguments", [])

/-- One property entry of the tool's `inputSchema` (server.py lines 100-110). -/
structure SchemaProperty where
  type : String
  description : String
  defaultVal : Option Int
deriving Repr, DecidableEq

/-- The `inputSchema` object of a tool descriptor (lines 98-112). -/
structure InputSchema where
  type : String
  properties : List (String × SchemaProperty)
  required : List String
deriving Repr, DecidableEq

/-- An MCP `Tool` descriptor as constructed at lines 95-113. -/
structure Tool where
  name : String
  description : String
  inputSchema : InputSchema
deriving Repr, DecidableEq

/-- `list_tools` (server.py lines 90-114): builds the same static one-entry
catalog on every discovery request; it reads no state and has no effects,
so it is a constant here. -/
def list_tools : List Tool :=
  [{ name := "pubmed_search",
     description := "Search PubMed medical literature database",
     inputSchema :=
       { type := "object",
         properties :=
           [("query",
             { type := "string",
               description := "Medical/scientific search query",
               defaultVal := Option.none }),
            ("max_results",
             { type := "number",
               description := "Maximum number of results (1-15)",
               defaultVal := Option.some 15 })],
         required := ["query"] } }]

/-! Concrete fixtures: one behaviour of the external collaborator per
scenario, and a trivially total search function for dispatch scenarios. -/

/-- A backend whose identifier search raises. -/
def beFailSearch : Backend :=
  { esearch := fun _ _ _ => Except.error "boom",
    efetch := fun _ _ => Except.error "boom" }

/-- A backend returning three identifiers out of 120 total matches. -/
def beThreeIds : Backend :=
  { esearch := fun _ _ _ => Except.ok ⟨["1", "2", "3"], 120⟩,
    efetch := fun _ _ => Except.ok "recs" }

/-- A backend reporting zero matching identifiers. -/
def beNoIds : Backend :=
  { esearch := fun _ _ _ => Except.ok ⟨[], 0⟩,
    efetch := fun _ _ => Except.ok "recs" }

/-- A backend whose record fetch raises after a successful identifier
search. -/
def beFailFetch : Backend :=
  { esearch := fun _ _ _ => Except.ok ⟨["1", "2"], 10⟩,
    efetch := fun _ _ => Except.error "net down" }

/-- A backend whose identifier search raises an exception whose `str(e)` is
empty (as `Exception()` in Python). -/
def beEmptyMsg : Backend :=
  { esearch := fun _ _ _ => Except.error "",
    efetch := fun _ _ => Except.error "" }

/-- A search function that always answers, standing for `pubmed.search` in
dispatch-level scenarios where the search behaviour is irrelevant. -/
def constSearch : PyValue → Int → Except String SearchOutcome :=
  fun _ _ => Except.ok (SearchOutcome.no_results "q" "m")

/-- C3: an invocation naming any tool other than `pubmed_search` fails with
the unknown-tool protocol error (the `raise ValueError` at server.py
line 123), and the search client is never invoked for that request (the
trace of calls to `pubmed.search` is empty). -/
theorem call_tool_unknown_tool (searchFn : PyValue → Int → Except String SearchOutcome)
    (name : String) (arguments : PyValue) (h : name ≠ "pubmed_search") :
    call_tool searchFn name arguments =
      (CallResult.unknownTool ("Unknown tool: " ++ name), []) := by
  simp [call_tool, h]

/-- Witness for C3: the concrete tool name `other_tool` is rejected and the
search client is not called. -/
theorem call_tool_unknown_tool_witness :
    call_tool constSearch "other_tool" (PyValue.dict [("query", PyValue.str "x")]) =
      (CallResult.unknownTool ("Unknown tool: " ++ "other_tool"), []) :=
  call_tool_unknown_tool constSearch "other_tool"
    (PyValue.dict [("query", PyValue.str "x")]) (by decide)

/-- C4: an invocation of `pubmed_search` whose arguments are not a dict, or
are a dict without the key `query`, fails with the invalid-arguments
protocol error (the `raise ValueError` at server.py line 127), and the
search client is never invoked for that request. -/
theorem call_tool_invalid_arguments (searchFn : PyValue → Int → Except String SearchOutcome)
    (arguments : PyValue) (h : validArgs arguments = false) :
    call_tool searchFn "pubmed_search" arguments =
      (CallResult.invalidArguments "Invalid search arguments", []) := by
  cases arguments with
  | dict entries =>
    cases hq : entries.lookup "query" with
    | some v => simp [validArgs, hq] at h
    | none => simp [call_tool, hq]
  | str s => simp [call_tool]
  | int n => simp [call_tool]
  | bool b => simp [call_tool]
  | list l => simp [call_tool]
  | noneVal => simp [call_tool]

/-- Witness for C4: a non-dict argument value is rejected without reaching
the search client. -/
theorem call_tool_invalid_arguments_witness :
    call_tool constSearch "pubmed_search" (PyValue.str "hi") =
      (CallResult.invalidArguments "Invalid search arguments", []) :=
  call_tool_invalid_arguments constSearch (PyValue.str "hi") rfl

/-- C9: for the invocation of `pubmed_search` whose `max_results` value is
the string `"abc"`, the `int()` coercion at server.py line 130 raises; the
exception is neither the invalid-arguments failure (validation already
passed at line 125) nor caught by the defensive handler (the coercion sits
outside the `try` block of lines 132-145), so it escapes `call_tool` as an
uncaught exception, and the search client is never invoked. -/
theorem call_tool_coercion_uncaught (searchFn : PyValue → Int → Except String SearchOutcome) :
    call_tool searchFn "pubmed_search"
        (PyValue.dict [("query", PyValue.str "flu"), ("max_results", PyValue.str "abc")]) =
      (CallResult.uncaughtException "invalid literal for int() with base 10: \x27abc\x27",
        []) :=
  rfl

/-- C1: for an invocation of `pubmed_search` with a dict argument holding
`query`, once the `int()` coercion of `max_results`-or-default yields `n`,
the search client is invoked exactly once with effective cap
`min n 15` (server.py line 130): in particular the cap equals `n` when
`n ∈ [1, 15]`, equals 15 when `n > 15` (silently reduced, the call still
reaches the search client rather than being rejected), and equals 15 when
`max_results` is absent (the default 15 is coerced). -/
theorem call_tool_effective_cap (searchFn : PyValue → Int → Except String SearchOutcome)
    (entries : List (String × PyValue)) (query : PyValue) (n : Int)
    (hq : entries.lookup "query" = Option.some query)
    (hm : pyInt ((entries.lookup "max_results").getD (PyValue.int 15)) = Except.ok n) :
    (call_tool searchFn "pubmed_search" (PyValue.dict entries)).2 = [(query, min n 15)] ∧
    (1 ≤ n → n ≤ 15 → min n 15 = n) ∧
    (15 < n → min n 15 = 15) ∧
    (entries.lookup "max_results" = Option.none → min n 15 = 15) := by
  refine ⟨?_, ?_, ?_, ?_⟩
  · cases hsf : searchFn query (min n 15) with
    | error e => simp [call_tool, hq, hm, hsf]
    | ok r => simp [call_tool, hq, hm, hsf]
  · intro h1 h15
    exact min_eq_left h15
  · intro h
    exact min_eq_right (le_of_lt h)
  · intro habs
    rw [habs] at hm
    simp [pyInt] at hm
    omega

/-- Witness for C1: a requested `max_results` of 7 reaches the search client
with cap 7, and a requested 9000 reaches it with cap 15. -/
theorem call_tool_effective_cap_witness :
    (call_tool constSearch "pubmed_search"
        (PyValue.dict [("query", PyValue.str "flu"), ("max_results", PyValue.int 7)])).2 =
      [(PyValue.str "flu", 7)] ∧
    (call_tool constSearch "pubmed_search"
        (PyValue.dict [("query", PyValue.str "x"), ("max_results", PyValue.int 9000)])).2 =
      [(PyValue.str "x", 15)] := by
  constructor
  · have h := (call_tool_effective_cap constSearch
      [("query", PyValue.str "flu"), ("max_results", PyValue.int 7)]
      (PyValue.str "flu") 7 rfl rfl).1
    norm_num at h
    exact h
  · have h := (call_tool_effective_cap constSearch
      [("query", PyValue.str "x"), ("max_results", PyValue.int 9000)]
      (PyValue.str "x") 9000 rfl rfl).1
    norm_num at h
    exact h

/-- C10: for an invocation of `pubmed_search` whose `max_results` coerces to
an integer `n ≤ 0`, `min n 15 = n`, so the value is passed to the search
client unchanged — `min(·, 15)` at server.py line 130 applies no lower
clamp, and `pubmed.search` is invoked with a cap violating its stated
positive-integer precondition. -/
theorem call_tool_no_lower_clamp (searchFn : PyValue → Int → Except String SearchOutcome)
    (entries : List (String × PyValue)) (query : PyValue) (n : Int)
    (hq : entries.lookup "query" = Option.some query)
    (hm : pyInt ((entries.lookup "max_results").getD (PyValue.int 15)) = Except.ok n)
    (hn : n ≤ 0) :
    (call_tool searchFn "pubmed_search" (PyValue.dict entries)).2 = [(query, n)] ∧
    ¬ 0 < n := by
  have hmin : min n 15 = n := min_eq_left (by omega)
  constructor
  · cases hsf : searchFn query n with
    | error e => simp [call_tool, hq, hm, hmin, hsf]
    | ok r => simp [call_tool, hq, hm, hmin, hsf]
  · omega

/-- Witness for C10: a requested `max_results` of `-3` reaches the search
client as `-3`. -/
theorem call_tool_no_lower_clamp_witness :
    (call_tool constSearch "pubmed_search"
        (PyValue.dict [("query", PyValue.str "x"), ("max_results", PyValue.int (-3))])).2 =
      [(PyValue.str "x", -3)] ∧ ¬ (0 : Int) < -3 :=
  call_tool_no_lower_clamp constSearch
    [("query", PyValue.str "x"), ("max_results", PyValue.int (-3))]
    (PyValue.str "x") (-3) rfl rfl (by decide)

/-- C2: for every query, cap, and backend behaviour — including a failure
raised in either network step — `PubMedSearcher.search` returns a
`SearchOutcome` echoing the query (one of the three variants; totality is
the type of the embedding, since the whole method body sits in the `try` of
server.py lines 54-85); moreover a failure in the identifier search, or in
the record fetch after a nonempty identifier list, yields the `error`
variant carrying that failure's message. -/
theorem search_always_returns_outcome (self : PubMedSearcher) (be : Backend)
    (query : String) (mr : Int) :
    ((∃ t s r, self.search be query mr = SearchOutcome.success query t s r) ∨
      (∃ m, self.search be query mr = SearchOutcome.no_results query m) ∨
      (∃ m, self.search be query mr = SearchOutcome.error query m)) ∧
    (∀ e, be.esearch self.db query mr = Except.error e →
      self.search be query mr = SearchOutcome.error query e) ∧
    (∀ res e, be.esearch self.db query mr = Except.ok res → res.idList ≠ [] →
      be.efetch self.db (String.intercalate "," res.idList) = Except.error e →
      self.search be query mr = SearchOutcome.error query e) := by
  refine ⟨?_, ?_, ?_⟩
  · cases he : be.esearch self.db query mr with
    | error e =>
      right; right
      exact ⟨e, by simp [PubMedSearcher.search, PubMedSearcher.searchT, he]⟩
    | ok res =>
      by_cases hl : res.idList = []
      · right; left
        exact ⟨noResultsMessage query,
          by simp [PubMedSearcher.search, PubMedSearcher.searchT, he, hl]⟩
      · cases hf : be.efetch self.db (String.intercalate "," res.idList) with
        | error e =>
          right; right
          exact ⟨e, by simp [PubMedSearcher.search, PubMedSearcher.searchT, he, hl, hf]⟩
        | ok records =>
          left
          exact ⟨res.count, res.idList.length, records,
            by simp [PubMedSearcher.search, PubMedSearcher.searchT, he, hl, hf]⟩
  · intro e he
    simp [PubMedSearcher.search, PubMedSearcher.searchT, he]
  · intro res e he hne hf
    simp [PubMedSearcher.search, PubMedSearcher.searchT, he, hne, hf]

/-- Witness for C2: a backend raising in the identifier search yields the
`error` outcome, and one raising in the record fetch yields it too. -/
theorem search_always_returns_outcome_witness :
    pubmed.search beFailSearch "flu" 5 = SearchOutcome.error "flu" "boom" ∧
    pubmed.search beFailFetch "flu" 5 = SearchOutcome.error "flu" "net down" :=
  ⟨(search_always_returns_outcome pubmed beFailSearch "flu" 5).2.1 "boom" rfl,
    (search_always_returns_outcome pubmed beFailFetch "flu" 5).2.2
      ⟨["1", "2"], 10⟩ "net down" rfl (by decide) rfl⟩

/-- C5: if the identifier search succeeds with zero identifiers, the outcome
is `no_results` echoing the query exactly, with the non-empty message of
server.py line 63 containing the query, and the record-fetch step is never
performed (the fetch trace is `Option.none`). -/
theorem search_no_results_echoes_query (self : PubMedSearcher) (be : Backend)
    (query : String) (mr : Int) (res : ESearchResult)
    (he : be.esearch self.db query mr = Except.ok res)
    (hempty : res.idList = []) :
    self.searchT be query mr =
      (SearchOutcome.no_results query (noResultsMessage query), Option.none) ∧
    (∃ pre post, noResultsMessage query = pre ++ query ++ post ∧ pre ≠ "") ∧
    noResultsMessage query ≠ "" := by
  refine ⟨by simp [PubMedSearcher.searchT, he, hempty],
    ⟨"No results found for \x27", "\x27", rfl, by decide⟩, ?_⟩
  intro h
  have h2 := congrArg String.data h
  simp [noResultsMessage] at h2

/-- Witness for C5: a backend with zero matches for `"zzz"` produces the
`no_results` outcome and no fetch. -/
theorem search_no_results_echoes_query_witness :
    pubmed.searchT beNoIds "zzz" 15 =
      (SearchOutcome.no_results "zzz" (noResultsMessage "zzz"), Option.none) :=
  (search_no_results_echoes_query pubmed beNoIds "zzz" 15 ⟨[], 0⟩ rfl rfl).1

/-- C6: under the external-interface contract (the identifier list the
backend returns is capped by the requested maximum and by its reported
total count), every `success` outcome satisfies
`showing ≤ total_results`, `showing ≤` the cap passed as `max_results`, and
`showing` equals the number of identifiers handed to the record-fetch step
(server.py lines 66-77 fetch exactly `results["IdList"]` and set `showing`
to its length). -/
theorem search_success_invariants (self : PubMedSearcher) (be : Backend)
    (query : String) (mr tot : Int) (showing : Nat) (recs : String)
    (ids : List String)
    (hiface : ∀ res, be.esearch self.db query mr = Except.ok res →
      (res.idList.length : Int) ≤ res.count ∧ (res.idList.length : Int) ≤ mr)
    (h : self.searchT be query mr =
      (SearchOutcome.success query tot showing recs, Option.some ids)) :
    (showing : Int) ≤ tot ∧ (showing : Int) ≤ mr ∧ showing = ids.length := by
  cases he : be.esearch self.db query mr with
  | error e => simp [PubMedSearcher.searchT, he] at h
  | ok res =>
    by_cases hl : res.idList = []
    · simp [PubMedSearcher.searchT, he, hl] at h
    · cases hf : be.efetch self.db (String.intercalate "," res.idList) with
      | error e => simp [PubMedSearcher.searchT, he, hl, hf] at h
      | ok records =>
        simp [PubMedSearcher.searchT, he, hl, hf, Prod.ext_iff] at h
        obtain ⟨⟨hcount, hshow, hrecs⟩, hids⟩ := h
        obtain ⟨hc, hm⟩ := hiface res he
        subst hcount hshow hids
        exact ⟨hc, hm, rfl⟩

/-- Witness for C6: the backend returning 3 of 120 matches under cap 5
yields a `success` outcome with `showing = 3 ≤ 120`, `3 ≤ 5`, and three
fetched identifiers. -/
theorem search_success_invariants_witness :
    ((3 : Nat) : Int) ≤ 120 ∧ ((3 : Nat) : Int) ≤ 5 ∧
      (3 : Nat) = (["1", "2", "3"] : List String).length :=
  search_success_invariants pubmed beThreeIds "flu" 5 120 3 "recs" ["1", "2", "3"]
    (by intro res hres
        injection hres with h
        subst h
        exact ⟨by decide, by decide⟩)
    rfl

/-- C7 counterexample: the claim's non-empty-message part fails on the code.
For the backend whose identifier search raises an exception with empty
`str(e)` — a network-layer failure — the outcome of `search` for `"flu"` is
the `error` variant whose `message` field is the empty string (server.py
line 84 copies `str(e)` verbatim). -/
theorem search_error_empty_message_counterexample :
    beEmptyMsg.esearch pubmed.db "flu" 5 = Except.error "" ∧
    pubmed.search beEmptyMsg "flu" 5 = SearchOutcome.error "flu" "" :=
  ⟨rfl, rfl⟩

/-- C7 as amended: if the network layer raises during either step (the
identifier search, or the record fetch after a nonempty identifier list),
the outcome is `error` echoing the query exactly, with `message` equal to
the failure's message — hence non-empty exactly when the failure's message
is — and the request loop is unaffected: requests after the failing one are
served exactly as they would be individually (search keeps no mutable
state). -/
theorem search_error_echoes_failure_message (self : PubMedSearcher) (be : Backend)
    (query : String) (mr : Int) (e : String)
    (hfail : be.esearch self.db query mr = Except.error e ∨
      ∃ res, be.esearch self.db query mr = Except.ok res ∧ res.idList ≠ [] ∧
        be.efetch self.db (String.intercalate "," res.idList) = Except.error e) :
    self.search be query mr = SearchOutcome.error query e ∧
    ∀ pre post, serve self be (pre ++ (query, mr) :: post) =
      serve self be pre ++ self.search be query mr :: serve self be post := by
  refine ⟨?_, ?_⟩
  · rcases hfail with he | ⟨res, he, hne, hf⟩
    · simp [PubMedSearcher.search, PubMedSearcher.searchT, he]
    · simp [PubMedSearcher.search, PubMedSearcher.searchT, he, hne, hf]
  · intro pre post
    simp [serve]

/-- Witness for amended C7: a backend failing with message `boom` gives the
`error` outcome for `"flu"` carrying exactly `boom`, and the requests around
the failing one are served exactly as they are individually. -/
theorem search_error_echoes_failure_message_witness :
    pubmed.search beFailSearch "flu" 5 = SearchOutcome.error "flu" "boom" ∧
    serve pubmed beFailSearch ([("a", 1)] ++ ("flu", 5) :: [("b", 2)]) =
      serve pubmed beFailSearch [("a", 1)] ++
        pubmed.search beFailSearch "flu" 5 :: serve pubmed beFailSearch [("b", 2)] := by
  obtain ⟨h1, h3⟩ := search_error_echoes_failure_message pubmed beFailSearch "flu" 5
    "boom" (Or.inl rfl)
  exact ⟨h1, h3 [("a", 1)] [("b", 2)]⟩

/-- C8: the tool catalog is a constant of the embedding (pure, identical on
every discovery request, always succeeds) holding exactly one descriptor:
name `pubmed_search`, description `Search PubMed medical literature
database`, an object schema requiring `query` of type string and optionally
accepting `max_results` of type number with default 15. -/
theorem list_tools_catalog :
    ∃ t : Tool, list_tools = [t] ∧
      t.name = "pubmed_search" ∧
      t.description = "Search PubMed medical literature database" ∧
      t.inputSchema.type = "object" ∧
      t.inputSchema.required = ["query"] ∧
      t.inputSchema.properties.lookup "query" =
        Option.some
          { type := "string",
            description := "Medical/scientific search query",
            defaultVal := Option.none } ∧
      t.inputSchema.properties.lookup "max_results" =
        Option.some
          { type := "number",
            description := "Maximum number of results (1-15)",
            defaultVal := Option.some 15 } :=
  ⟨_, rfl, rfl, rfl, rfl, rfl, rfl, rfl⟩

end PubmedSearch
